import Mathlib

/-!
# Verification of the beam-analysis program `engineering_3.0.py`

A shallow embedding of the computational core of the program: the
`DistributedLoad` constructor, the reaction computation from `main`
(lines 153-158), the point-query internal-force evaluator
`calculate_internal_forces` (lines 116-126), and the diagram sampler
`calculate_diagrams` (lines 57-74) together with the extremum search
done by `plot_diagrams` via `np.argmin` / `np.argmax` (lines 84-85,
100-101).

Modelling decisions:

* Real arithmetic is embedded as `ℚ` (the program computes with floats;
  the spec's properties are stated up to numerical tolerance, and `ℚ`
  is the exact idealisation of that arithmetic).
* The program accepts an arbitrary expression string as a load-intensity
  function (e.g. `100`, `50*x`, `20*(x-2)**2`) and integrates it with
  `scipy.integrate.quad`.  The spec treats both the expression evaluator
  and the quadrature routine as external black boxes, the latter
  returning the definite integral.  We embed an intensity function as a
  polynomial given by its coefficient list, and `quad` as the exact
  definite integral of that polynomial: this covers the program's
  documented load shapes and makes integration exact.
* Python raises `ZeroDivisionError` on division by zero; a computation
  that can divide by zero is embedded in `Except PyError`.  The error
  type also carries the error classes named by the spec, so that claims
  about them can be stated; the source itself never raises any of them.
-/

/-- A point load or a reaction: `(position, magnitude)`, upward positive,
exactly the `(x, F)` pairs of the source. -/
abbrev Load := ℚ × ℚ

/-- A load-intensity function `q(x)`, as the coefficient list of a
polynomial: `[c0, c1, c2]` stands for `c0 + c1*x + c2*x^2`. -/
abbrev LoadPoly := List ℚ

/-- Evaluate a polynomial (Horner form). -/
def LoadPoly.eval : LoadPoly → ℚ → ℚ
  | [], _ => 0
  | c :: p, x => c + x * LoadPoly.eval p x

/-- `LoadPoly.antiderivAux p n` integrates the coefficients of `p` whose first
entry has degree `n - 1` in the antiderivative. -/
def LoadPoly.antiderivAux : List ℚ → Nat → List ℚ
  | [], _ => []
  | c :: p, n => c / (n : ℚ) :: LoadPoly.antiderivAux p (n + 1)

/-- The antiderivative of a polynomial, with zero constant term. -/
def LoadPoly.antideriv (p : LoadPoly) : LoadPoly := 0 :: LoadPoly.antiderivAux p 1

/-- Multiplication of a polynomial by `x` (used for the centroid and
moment integrands `x*q(x)` of the source). -/
def LoadPoly.mulX (p : LoadPoly) : LoadPoly := 0 :: p

/-- Scale a polynomial by a constant. -/
def LoadPoly.smul (c : ℚ) (p : LoadPoly) : LoadPoly := p.map (fun a => c * a)

/-- Negate a polynomial. -/
def LoadPoly.negP (p : LoadPoly) : LoadPoly := p.map (fun a => -a)

/-- Coefficient-wise sum of two polynomials. -/
def LoadPoly.addP : LoadPoly → LoadPoly → LoadPoly
  | [], q => q
  | p, [] => p
  | a :: p, b :: q => (a + b) :: LoadPoly.addP p q

/-- Model of the external quadrature routine `scipy.integrate.quad` on a
polynomial integrand: the exact definite integral `∫_a^b p(x) dx`
(the spec's contract for the consumed quadrature capability). -/
def quad (p : LoadPoly) (a b : ℚ) : ℚ :=
  LoadPoly.eval (LoadPoly.antideriv p) b - LoadPoly.eval (LoadPoly.antideriv p) a

/-- The errors a run of the core can surface.  `zeroDivisionError` is the
one Python actually raises (float division by zero); the remaining
constructors are the spec's error taxonomy (§7), present so that claims
about them are statable — no code path of the source produces them. -/
inductive PyError where
  | zeroDivisionError
  | invalidIntervalError
  | degenerateLoadError
  | unsolvableSystemError
  | outOfRangeError
deriving DecidableEq

/-- A distributed load as the source's `DistributedLoad` object: the
intensity function, the interval `[start, stop]` (`end` in the source),
and the derived `total_force` and `centroid`. -/
structure DistributedLoad where
  func : LoadPoly
  start : ℚ
  stop : ℚ
  total_force : ℚ
  centroid : ℚ
deriving DecidableEq

/-- `DistributedLoad.__init__` (source lines 7-17).
`total_force = quad(func, start, end)`; `centroid = quad(x*func(x), start,
end) / total_force`.  The division is unguarded: when `total_force` is
zero, Python raises `ZeroDivisionError`.  There is no validation of the
interval bounds anywhere in the constructor. -/
def DistributedLoad.init (q : LoadPoly) (start stop : ℚ) :
    Except PyError DistributedLoad :=
  let tf := quad q start stop
  if tf = 0 then Except.error PyError.zeroDivisionError
  else Except.ok { func := q, start := start, stop := stop, total_force := tf,
                   centroid := quad (LoadPoly.mulX q) start stop / tf }

/-- The reaction computation of `main` (source lines 153-158):
`sum_F = Σ F + Σ dl.total_force`,
`sum_M = Σ F*x + Σ dl.total_force*dl.centroid`,
`R2 = -sum_M / L`, `R1 = -sum_F - R2`, `reactions = [(0, R1), (L, R2)]`.
The support positions read at lines 148-152 are received but never used
by this computation.  Python's division raises `ZeroDivisionError` when
`L` is zero, modelled by the `Except.error` branch. -/
def solve_reactions (L : ℚ) (point_loads : List Load)
    (dist_loads : List DistributedLoad) (supports : List ℚ) :
    Except PyError (List Load) :=
  let _ := supports
  let sum_F := (point_loads.map (fun lf => lf.2)).sum
    + (dist_loads.map (fun dl => dl.total_force)).sum
  let sum_M := (point_loads.map (fun lf => lf.2 * lf.1)).sum
    + (dist_loads.map (fun dl => dl.total_force * dl.centroid)).sum
  if L = 0 then Except.error PyError.zeroDivisionError
  else
    let R2 := -sum_M / L
    let R1 := -sum_F - R2
    Except.ok [(0, R1), (L, R2)]

/-- `calculate_internal_forces` (source lines 116-126).  Shear is the sum
of the magnitudes of all point loads and reactions at positions `≤ x`;
moment the sum of `F*(x - xf)` over the same loads; each distributed load
with `start ≤ x` contributes the integrals of `q` and `(x - ξ)*q(ξ)` over
`[max(start, 0), min(end, x)]` when that interval is non-empty.  The
function performs no range check on `x` and has no failing path; the
`Except` return type records that no error is ever raised. -/
def calculate_internal_forces (x L : ℚ) (point_loads : List Load)
    (dist_loads : List DistributedLoad) (reactions : List Load) :
    Except PyError (ℚ × ℚ) :=
  let _ := L
  let shear :=
    (((point_loads ++ reactions).filter (fun lf => lf.1 ≤ x)).map
      (fun lf => lf.2)).sum
    + (dist_loads.map (fun dl =>
        if dl.start ≤ x then
          if max dl.start 0 < min dl.stop x then
            quad dl.func (max dl.start 0) (min dl.stop x)
          else 0
        else 0)).sum
  let moment :=
    (((point_loads ++ reactions).filter (fun lf => lf.1 ≤ x)).map
      (fun lf => lf.2 * (x - lf.1))).sum
    + (dist_loads.map (fun dl =>
        if dl.start ≤ x then
          if max dl.start 0 < min dl.stop x then
            quad (LoadPoly.addP (LoadPoly.smul x dl.func) (LoadPoly.negP (LoadPoly.mulX dl.func)))
              (max dl.start 0) (min dl.stop x)
          else 0
        else 0)).sum
  Except.ok (shear, moment)

/-- The shear value the diagram loop of `calculate_diagrams` computes at
one sample position `x` (source lines 64, 67-72): the same running sum
over `all_loads = point_loads + reactions` with the `xf <= x` comparison,
plus the clipped distributed-load integrals. -/
def diagShearAt (x : ℚ) (all_loads : List Load)
    (dist_loads : List DistributedLoad) : ℚ :=
  ((all_loads.filter (fun lf => lf.1 ≤ x)).map (fun lf => lf.2)).sum
  + (dist_loads.map (fun dl =>
      if dl.start ≤ x then
        if max dl.start 0 < min dl.stop x then
          quad dl.func (max dl.start 0) (min dl.stop x)
        else 0
      else 0)).sum

/-- The moment value the diagram loop of `calculate_diagrams` computes at
one sample position `x` (source lines 65, 67-73). -/
def diagMomentAt (x : ℚ) (all_loads : List Load)
    (dist_loads : List DistributedLoad) : ℚ :=
  ((all_loads.filter (fun lf => lf.1 ≤ x)).map (fun lf => lf.2 * (x - lf.1))).sum
  + (dist_loads.map (fun dl =>
      if dl.start ≤ x then
        if max dl.start 0 < min dl.stop x then
          quad (LoadPoly.addP (LoadPoly.smul x dl.func) (LoadPoly.negP (LoadPoly.mulX dl.func)))
            (max dl.start 0) (min dl.stop x)
        else 0
      else 0)).sum

/-- `calculate_diagrams` (source lines 57-74): sample positions
`np.linspace(0, L, 1000)`, i.e. `x_i = i*L/999` for `i = 0..999`, and the
shear and moment sequences over those positions.  The sample count 1000
is hard-coded in the source. -/
def calculate_diagrams (L : ℚ) (point_loads : List Load)
    (dist_loads : List DistributedLoad) (reactions : List Load) :
    List ℚ × List ℚ × List ℚ :=
  let x_vals := (List.range 1000).map (fun i : Nat => (i : ℚ) * L / 999)
  let all_loads := point_loads ++ reactions
  (x_vals,
   x_vals.map (fun x => diagShearAt x all_loads dist_loads),
   x_vals.map (fun x => diagMomentAt x all_loads dist_loads))

/-- `np.argmin` as `plot_diagrams` uses it (source lines 84, 100): an
index at which the sequence attains its minimum. -/
def argmin (l : List ℚ) : Nat :=
  match l.min? with
  | some m => l.findIdx (fun v => v = m)
  | none => 0

/-- `np.argmax` as `plot_diagrams` uses it (source lines 85, 101): an
index at which the sequence attains its maximum. -/
def argmax (l : List ℚ) : Nat :=
  match l.max? with
  | some m => l.findIdx (fun v => v = m)
  | none => 0

/-! ## Helper lemmas -/

/-- Integral of the constant polynomial `[q]`. -/
theorem quad_const (q a b : ℚ) : quad [q] a b = q * (b - a) := by
  simp [quad, LoadPoly.antideriv, LoadPoly.antiderivAux, LoadPoly.eval]
  ring

/-- Integral of `x * q` for constant `q`. -/
theorem quad_mulX_const (q a b : ℚ) :
    quad (LoadPoly.mulX [q]) a b = q * (b * b - a * a) / 2 := by
  simp [quad, LoadPoly.mulX, LoadPoly.antideriv, LoadPoly.antiderivAux, LoadPoly.eval]
  ring

/-- The constructor succeeds exactly when the integrated total force is
nonzero, and then stores the two integrals. -/
theorem DistributedLoad.init_ok (q : LoadPoly) (s e : ℚ)
    (h : quad q s e ≠ 0) :
    DistributedLoad.init q s e = Except.ok
      { func := q, start := s, stop := e, total_force := quad q s e,
        centroid := quad (LoadPoly.mulX q) s e / quad q s e } := by
  simp [DistributedLoad.init, h]

/-- The constructor hits Python's unguarded division by zero when the
integrated total force is zero. -/
theorem DistributedLoad.init_zero (q : LoadPoly) (s e : ℚ)
    (h : quad q s e = 0) :
    DistributedLoad.init q s e = Except.error PyError.zeroDivisionError := by
  simp [DistributedLoad.init, h]

/-- What `solve_reactions` returns for a nonzero beam length, in closed
form: the two reactions, always at positions `0` and `L`. -/
theorem solve_reactions_ok (L : ℚ) (pls : List Load)
    (dls : List DistributedLoad) (supports : List ℚ) (hL : L ≠ 0) :
    solve_reactions L pls dls supports = Except.ok
      [(0, -((pls.map (fun lf => lf.2)).sum
            + (dls.map (fun dl => dl.total_force)).sum)
          - -((pls.map (fun lf => lf.2 * lf.1)).sum
            + (dls.map (fun dl => dl.total_force * dl.centroid)).sum) / L),
       (L, -((pls.map (fun lf => lf.2 * lf.1)).sum
            + (dls.map (fun dl => dl.total_force * dl.centroid)).sum) / L)] := by
  simp [solve_reactions, hL]

/-! ## C2: force balance of the solved reactions -/

/-- C2 (confirmed).  For every beam model with exactly two supports, the
reactions `R1`, `R2` produced by the reaction computation satisfy the
force balance `R1 + R2 + Σ F_point + Σ totalForce_i = 0`. -/
theorem solved_reactions_force_balance (L : ℚ) (pls : List Load)
    (dls : List DistributedLoad) (supports : List ℚ)
    (h2 : supports.length = 2) (r : List Load)
    (hok : solve_reactions L pls dls supports = Except.ok r) :
    ∃ R1 R2, r = [(0, R1), (L, R2)]
      ∧ R1 + R2 + (pls.map (fun lf => lf.2)).sum
        + (dls.map (fun dl => dl.total_force)).sum = 0 := by
  by_cases hL : L = 0
  · simp [solve_reactions, hL] at hok
  · rw [solve_reactions_ok L pls dls supports hL] at hok
    refine ⟨_, _, (Except.ok.inj hok).symm, ?_⟩
    ring

/-- Witness for C2: beam of length 10, a `-100` point load at `x = 5`,
supports at `0` and `10`; the solver returns `R1 = R2 = 50` and
`50 + 50 + (-100) + 0 = 0`. -/
theorem solved_reactions_force_balance_check :
    ∃ R1 R2, ([((0 : ℚ), (50 : ℚ)), (10, 50)] : List Load) = [(0, R1), (10, R2)]
      ∧ R1 + R2 + (([((5 : ℚ), (-100 : ℚ))] : List Load).map (fun lf => lf.2)).sum
        + (([] : List DistributedLoad).map (fun dl => dl.total_force)).sum = 0 :=
  solved_reactions_force_balance 10 [(5, -100)] [] [0, 10] (by norm_num)
    [(0, 50), (10, 50)] (by norm_num [solve_reactions])

/-! ## C1: positions of the reactions and the moment balance -/

/-- C1 (corrected).  The source computes moments about position `0` and
always places the reactions at `0` and `L`, whatever the support
positions are: whenever the computation succeeds, the returned reactions
are `[(0, R1), (L, R2)]`, they satisfy the moment balance about `0`,
`R2·(L − 0) + Σ F_point·(x_point − 0) + Σ totalForce_i·(centroid_i − 0) = 0`,
and `R2 = −[Σ M_about_0] / L`. -/
theorem reactions_at_beam_ends_moment_balance (L : ℚ) (pls : List Load)
    (dls : List DistributedLoad) (supports : List ℚ) (r : List Load)
    (hok : solve_reactions L pls dls supports = Except.ok r) :
    ∃ R1 R2, r = [(0, R1), (L, R2)]
      ∧ R2 * (L - 0) + (pls.map (fun lf => lf.2 * (lf.1 - 0))).sum
        + (dls.map (fun dl => dl.total_force * (dl.centroid - 0))).sum = 0
      ∧ R2 = -((pls.map (fun lf => lf.2 * lf.1)).sum
          + (dls.map (fun dl => dl.total_force * dl.centroid)).sum) / L := by
  by_cases hL : L = 0
  · simp [solve_reactions, hL] at hok
  · rw [solve_reactions_ok L pls dls supports hL] at hok
    refine ⟨_, _, (Except.ok.inj hok).symm, ?_, rfl⟩
    simp only [sub_zero]
    rw [div_mul_eq_mul_div, mul_div_assoc, div_self hL, mul_one]
    ring

/-- Counterexample for C1 as stated: beam of length 10, supports at
`x1 = 3 < x2 = 7`, one point load `(5, -100)`.  The solver does not place
the reactions at the support positions: it returns `[(0, 50), (10, 50)]`,
so no `R1`, `R2` make the result `[(3, R1), (7, R2)]`. -/
theorem reactions_not_at_support_positions :
    ¬ ∃ R1 R2, solve_reactions 10 [(5, -100)] [] [3, 7]
        = Except.ok [(3, R1), (7, R2)] := by
  rintro ⟨R1, R2, h⟩
  rw [solve_reactions_ok 10 [(5, -100)] [] [3, 7] (by norm_num)] at h
  norm_num at h

/-- Witness for C1's amended statement: with supports `[3, 7]`, length 10
and the `(5, -100)` point load the reactions come back at `0` and `10`
with `R2·10 + (-100)·5 = 0` and `R2 = -(-500)/10`. -/
theorem reactions_at_beam_ends_moment_balance_check :
    ∃ R1 R2, ([((0 : ℚ), (50 : ℚ)), (10, 50)] : List Load) = [(0, R1), (10, R2)]
      ∧ R2 * (10 - 0)
        + (([((5 : ℚ), (-100 : ℚ))] : List Load).map (fun lf => lf.2 * (lf.1 - 0))).sum
        + (([] : List DistributedLoad).map (fun dl => dl.total_force * (dl.centroid - 0))).sum = 0
      ∧ R2 = -((([((5 : ℚ), (-100 : ℚ))] : List Load).map (fun lf => lf.2 * lf.1)).sum
          + (([] : List DistributedLoad).map (fun dl => dl.total_force * dl.centroid)).sum) / 10 :=
  reactions_at_beam_ends_moment_balance 10 [(5, -100)] [] [3, 7]
    [(0, 50), (10, 50)] (by norm_num [solve_reactions])

/-! ## C4: the solver's support validation -/

/-- C4 (corrected).  The reaction computation performs no support
validation at all: for every beam length `L ≠ 0` it succeeds, whatever
the number or positions of the supports, returning reactions at `0` and
`L`.  (The only failing input is `L = 0`, where Python's division raises
`ZeroDivisionError` — not `UnsolvableSystemError`.) -/
theorem solver_ignores_support_count (L : ℚ) (pls : List Load)
    (dls : List DistributedLoad) (supports : List ℚ) (hL : L ≠ 0) :
    (∃ R1 R2, solve_reactions L pls dls supports = Except.ok [(0, R1), (L, R2)])
    ∧ (solve_reactions 0 pls dls supports
        = Except.error PyError.zeroDivisionError) := by
  refine ⟨⟨_, _, solve_reactions_ok L pls dls supports hL⟩, ?_⟩
  simp [solve_reactions]

/-- Witness for C4's amended statement at `L = 10` with three supports. -/
theorem solver_ignores_support_count_check :
    (∃ R1 R2, solve_reactions 10 [] [] [0, 5, 10] = Except.ok [(0, R1), (10, R2)])
    ∧ (solve_reactions 0 ([] : List Load) ([] : List DistributedLoad) [0, 5, 10]
        = Except.error PyError.zeroDivisionError) :=
  solver_ignores_support_count 10 [] [] [0, 5, 10] (by norm_num)

/-- Counterexample for C4 as stated: `[0, 5, 10]` is a support
configuration of three supports, yet the solver does not fail with
`UnsolvableSystemError` — it succeeds with zero reactions. -/
theorem solver_succeeds_with_three_supports :
    ([(0 : ℚ), 5, 10].length ≠ 2)
    ∧ solve_reactions 10 [] [] [0, 5, 10] ≠ Except.error PyError.unsolvableSystemError
    ∧ solve_reactions 10 [] [] [0, 5, 10] = Except.ok [(0, 0), (10, 0)] := by
  have hok : solve_reactions 10 [] [] [0, 5, 10] = Except.ok [(0, 0), (10, 0)] := by
    norm_num [solve_reactions]
  exact ⟨by norm_num, by rw [hok]; exact fun hcon => Except.noConfusion hcon, hok⟩

/-! ## C5: range checking of the internal-force evaluator -/

/-- C5 (corrected).  `calculate_internal_forces` performs no range check:
it returns a `(shear, moment)` pair for every query position `x`,
including `x < 0` and `x > L`, and never raises `OutOfRangeError`. -/
theorem evaluator_never_out_of_range (x L : ℚ) (pls : List Load)
    (dls : List DistributedLoad) (rs : List Load) :
    ∃ s m, calculate_internal_forces x L pls dls rs = Except.ok (s, m) :=
  ⟨_, _, rfl⟩

/-- Counterexample for C5 as stated: at `x = -1 < 0` on a beam of length
10 the evaluator returns `(0, 0)` instead of raising `OutOfRangeError`. -/
theorem evaluator_accepts_negative_position :
    ((-1 : ℚ) < 0)
    ∧ calculate_internal_forces (-1) 10 [] [] [] ≠ Except.error PyError.outOfRangeError
    ∧ calculate_internal_forces (-1) 10 [] [] [] = Except.ok (0, 0) := by
  have hok : calculate_internal_forces (-1) 10 [] [] [] = Except.ok (0, 0) := by
    norm_num [calculate_internal_forces]
  exact ⟨by norm_num, by rw [hok]; exact fun hcon => Except.noConfusion hcon, hok⟩

/-! ## C6: interval validation of the DistributedLoad constructor -/

/-- C6 (corrected).  `DistributedLoad.__init__` performs no interval
validation whatsoever: for arbitrary `start`, `end` — reversed, or
outside `[0, L]` — construction succeeds whenever the (signed) integral
of the intensity over `[start, end]` is nonzero, storing that integral as
`total_force`; `InvalidIntervalError` is never raised. -/
theorem init_accepts_any_interval (q : LoadPoly) (s e : ℚ)
    (h : quad q s e ≠ 0) :
    DistributedLoad.init q s e = Except.ok
      { func := q, start := s, stop := e, total_force := quad q s e,
        centroid := quad (LoadPoly.mulX q) s e / quad q s e } :=
  DistributedLoad.init_ok q s e h

/-- Witness for C6's amended statement: the reversed interval `[2, 1]`
(i.e. `start > end`) is accepted. -/
theorem init_accepts_any_interval_check :
    DistributedLoad.init [1] 2 1 = Except.ok
      { func := [1], start := 2, stop := 1, total_force := quad [1] 2 1,
        centroid := quad (LoadPoly.mulX [1]) 2 1 / quad [1] 2 1 } :=
  init_accepts_any_interval [1] 2 1 (by rw [quad_const]; norm_num)

/-- Counterexample for C6 as stated: constructing with `start = 2 > 1 =
end` (a malformed interval) does not fail with `InvalidIntervalError`; it
succeeds, with the signed total force `-1` and centroid `3/2`. -/
theorem init_accepts_reversed_interval :
    ((2 : ℚ) > 1)
    ∧ DistributedLoad.init [1] 2 1 ≠ Except.error PyError.invalidIntervalError
    ∧ DistributedLoad.init [1] 2 1
      = Except.ok { func := [1], start := 2, stop := 1,
                    total_force := -1, centroid := 3 / 2 } := by
  have hok : DistributedLoad.init [1] 2 1
      = Except.ok { func := [1], start := 2, stop := 1,
                    total_force := -1, centroid := 3 / 2 } := by
    rw [DistributedLoad.init_ok [1] 2 1 (by rw [quad_const]; norm_num)]
    rw [quad_const, quad_mulX_const]
    norm_num
  exact ⟨by norm_num, by rw [hok]; exact fun hcon => Except.noConfusion hcon, hok⟩

/-! ## C7: the zero-total-force failure mode -/

/-- C7 (corrected).  When the integrated total force is exactly zero, the
constructor's unguarded centroid division raises Python's
`ZeroDivisionError` — not the spec's `DegenerateLoadError`. -/
theorem zero_total_force_zero_division (q : LoadPoly) (s e : ℚ)
    (h : quad q s e = 0) :
    DistributedLoad.init q s e = Except.error PyError.zeroDivisionError :=
  DistributedLoad.init_zero q s e h

/-- Witness for C7's amended statement: the antisymmetric intensity
`q(x) = x - 1` over `[0, 2]` has zero resultant and the constructor fails
with `ZeroDivisionError`. -/
theorem zero_total_force_zero_division_check :
    DistributedLoad.init [-1, 1] 0 2 = Except.error PyError.zeroDivisionError :=
  zero_total_force_zero_division [-1, 1] 0 2
    (by norm_num [quad, LoadPoly.antideriv, LoadPoly.antiderivAux, LoadPoly.eval])

/-- Counterexample for C7 as stated: for `q(x) = x - 1` over `[0, 2]` the
total force is zero, and the error raised is `ZeroDivisionError`, not
`DegenerateLoadError`. -/
theorem zero_total_force_not_degenerate_error :
    quad [-1, 1] 0 2 = 0
    ∧ DistributedLoad.init [-1, 1] 0 2 = Except.error PyError.zeroDivisionError
    ∧ DistributedLoad.init [-1, 1] 0 2 ≠ Except.error PyError.degenerateLoadError := by
  have h0 : quad [-1, 1] 0 2 = 0 := by
    norm_num [quad, LoadPoly.antideriv, LoadPoly.antiderivAux, LoadPoly.eval]
  have herr := DistributedLoad.init_zero [-1, 1] 0 2 h0
  refine ⟨h0, herr, ?_⟩
  rw [herr]
  intro hcon
  have : PyError.zeroDivisionError = PyError.degenerateLoadError :=
    Except.error.inj hcon
  exact PyError.noConfusion this

/-! ## C8: the constant-load closed form -/

/-- C8 (confirmed).  A distributed load built from the constant intensity
`q` over `[a, b]` with `a ≤ b` and nonzero resultant `q·(b − a)` has
`totalForce = q·(b − a)` and `centroid = (a + b)/2`.  (When `q·(b − a) = 0`
no object is constructed at all: the constructor raises, see C7.) -/
theorem constant_load_total_force_and_centroid (q a b : ℚ) (hab : a ≤ b)
    (h : q * (b - a) ≠ 0) :
    ∃ dl, DistributedLoad.init [q] a b = Except.ok dl
      ∧ dl.total_force = q * (b - a) ∧ dl.centroid = (a + b) / 2 := by
  have htf : quad [q] a b ≠ 0 := by rw [quad_const]; exact h
  refine ⟨_, DistributedLoad.init_ok [q] a b htf, by simp [quad_const], ?_⟩
  have hq : q ≠ 0 := fun hq0 => h (by rw [hq0]; ring)
  have hba : b - a ≠ 0 := fun h0 => h (by rw [h0]; ring)
  show quad (LoadPoly.mulX [q]) a b / quad [q] a b = (a + b) / 2
  rw [quad_const, quad_mulX_const]
  rw [div_eq_div_iff (mul_ne_zero hq hba) (by norm_num)]
  ring

/-- Witness for C8: `q = 2` over `[0, 1]` gives `totalForce = 2` and
`centroid = 1/2`. -/
theorem constant_load_total_force_and_centroid_check :
    ∃ dl, DistributedLoad.init [2] 0 1 = Except.ok dl
      ∧ dl.total_force = 2 * (1 - 0) ∧ dl.centroid = (0 + 1) / 2 :=
  constant_load_total_force_and_centroid 2 0 1 (by norm_num) (by norm_num)

/-! ## C3: inclusion of a load located exactly at the query position -/

/-- C3 (confirmed).  A point load or reaction `(x, F)` located exactly at
the query position `x` IS included by the `≤` comparison: adding it to
the load list adds `F` to the shear and `F·(x − x) = 0` to the moment, in
the point-query evaluator and in the per-sample computation of the
diagram sampler alike. -/
theorem point_load_at_query_position_included (x F L : ℚ)
    (pls rs all_loads : List Load) (dls : List DistributedLoad) :
    (∃ s m, calculate_internal_forces x L pls dls rs = Except.ok (s, m)
       ∧ calculate_internal_forces x L ((x, F) :: pls) dls rs
         = Except.ok (s + F, m + F * (x - x)))
    ∧ diagShearAt x ((x, F) :: all_loads) dls = diagShearAt x all_loads dls + F
    ∧ diagMomentAt x ((x, F) :: all_loads) dls
      = diagMomentAt x all_loads dls + F * (x - x) := by
  refine ⟨⟨_, _, rfl, ?_⟩, ?_, ?_⟩
  · simp only [calculate_internal_forces, List.cons_append, List.filter_cons,
      decide_eq_true_eq, le_refl, if_true, List.map_cons, List.sum_cons]
    refine congrArg Except.ok ?_
    refine Prod.ext ?_ ?_ <;> ring
  · simp only [diagShearAt, List.filter_cons, decide_eq_true_eq, le_refl,
      if_true, List.map_cons, List.sum_cons]
    ring
  · simp only [diagMomentAt, List.filter_cons, decide_eq_true_eq, le_refl,
      if_true, List.map_cons, List.sum_cons]
    ring

/-! ## C10: the sampled diagrams agree with the point-query evaluator -/

/-- C10 (confirmed).  At every grid point `x_i = i·L/999` the shear and
moment samples produced by `calculate_diagrams` equal the pair returned
by `calculate_internal_forces` at `x = x_i` with the same point loads,
distributed loads and reactions. -/
theorem diagram_samples_match_point_query (L : ℚ) (pls : List Load)
    (dls : List DistributedLoad) (rs : List Load) (i : Fin 1000) :
    ∃ s m, (calculate_diagrams L pls dls rs).2.1[(i : Nat)]? = some s
      ∧ (calculate_diagrams L pls dls rs).2.2[(i : Nat)]? = some m
      ∧ calculate_internal_forces (((i : Nat) : ℚ) * L / 999) L pls dls rs
        = Except.ok (s, m) := by
  refine ⟨diagShearAt (((i : Nat) : ℚ) * L / 999) (pls ++ rs) dls,
          diagMomentAt (((i : Nat) : ℚ) * L / 999) (pls ++ rs) dls, ?_, ?_, ?_⟩
  · simp only [calculate_diagrams, List.getElem?_map, List.getElem?_range i.isLt]
    rfl
  · simp only [calculate_diagrams, List.getElem?_map, List.getElem?_range i.isLt]
    rfl
  · rfl

/-! ## C9: the diagram sampler's grid and extrema -/

/-- `argmin` returns an index at which the list attains its minimum. -/
theorem argmin_spec (l : List ℚ) (hne : l ≠ []) :
    ∃ v, l[argmin l]? = some v
      ∧ ∀ j, j < l.length → ∃ w, l[j]? = some w ∧ v ≤ w := by
  obtain ⟨m, hm⟩ : ∃ m, l.min? = some m := by
    cases h : l.min? with
    | none => exact absurd (List.min?_eq_none_iff.mp h) hne
    | some m => exact ⟨m, rfl⟩
  have hmem : m ∈ l := List.min?_mem (fun a b => min_choice a b) hm
  have hle : ∀ b ∈ l, m ≤ b :=
    fun b hb => (List.le_min?_iff (fun a b c => le_min_iff) hm).mp (le_refl m) b hb
  have hlt : l.findIdx (fun v => v = m) < l.length :=
    List.findIdx_lt_length_of_exists ⟨m, hmem, by simp⟩
  have harg : argmin l = l.findIdx (fun v => v = m) := by
    unfold argmin
    rw [hm]
  have h1 : l[l.findIdx (fun v => v = m)]? = some l[l.findIdx (fun v => v = m)] :=
    List.getElem?_eq_getElem hlt
  have h2 : l[l.findIdx (fun v => v = m)] = m :=
    of_decide_eq_true (@List.findIdx_getElem _ (fun v => decide (v = m)) l hlt)
  refine ⟨m, by rw [harg, h1, h2], fun j hj => ?_⟩
  exact ⟨l[j], List.getElem?_eq_getElem hj, hle _ (List.getElem_mem hj)⟩

/-- `argmax` returns an index at which the list attains its maximum. -/
theorem argmax_spec (l : List ℚ) (hne : l ≠ []) :
    ∃ v, l[argmax l]? = some v
      ∧ ∀ j, j < l.length → ∃ w, l[j]? = some w ∧ w ≤ v := by
  obtain ⟨m, hm⟩ : ∃ m, l.max? = some m := by
    cases h : l.max? with
    | none => exact absurd (List.max?_eq_none_iff.mp h) hne
    | some m => exact ⟨m, rfl⟩
  have hmem : m ∈ l := List.max?_mem (fun a b => max_choice a b) hm
  have hle : ∀ b ∈ l, b ≤ m :=
    fun b hb => (List.max?_le_iff (fun a b c => max_le_iff) hm).mp (le_refl m) b hb
  have hlt : l.findIdx (fun v => v = m) < l.length :=
    List.findIdx_lt_length_of_exists ⟨m, hmem, by simp⟩
  have harg : argmax l = l.findIdx (fun v => v = m) := by
    unfold argmax
    rw [hm]
  have h1 : l[l.findIdx (fun v => v = m)]? = some l[l.findIdx (fun v => v = m)] :=
    List.getElem?_eq_getElem hlt
  have h2 : l[l.findIdx (fun v => v = m)] = m :=
    of_decide_eq_true (@List.findIdx_getElem _ (fun v => decide (v = m)) l hlt)
  refine ⟨m, by rw [harg, h1, h2], fun j hj => ?_⟩
  exact ⟨l[j], List.getElem?_eq_getElem hj, hle _ (List.getElem_mem hj)⟩

/-- Fin-indexed form of `argmin_spec` for the length-1000 sample lists. -/
theorem argmin_spec_1000 (l : List ℚ) (hlen : l.length = 1000) :
    ∃ v, l[argmin l]? = some v
      ∧ ∀ j : Fin 1000, ∃ w, l[(j : Nat)]? = some w ∧ v ≤ w := by
  have hne : l ≠ [] := by
    intro h
    rw [h] at hlen
    simp at hlen
  obtain ⟨v, hv, h⟩ := argmin_spec l hne
  exact ⟨v, hv, fun j => h j.val (by rw [hlen]; exact j.isLt)⟩

/-- Fin-indexed form of `argmax_spec` for the length-1000 sample lists. -/
theorem argmax_spec_1000 (l : List ℚ) (hlen : l.length = 1000) :
    ∃ v, l[argmax l]? = some v
      ∧ ∀ j : Fin 1000, ∃ w, l[(j : Nat)]? = some w ∧ w ≤ v := by
  have hne : l ≠ [] := by
    intro h
    rw [h] at hlen
    simp at hlen
  obtain ⟨v, hv, h⟩ := argmax_spec l hne
  exact ⟨v, hv, fun j => h j.val (by rw [hlen]; exact j.isLt)⟩

/-- C9 (confirmed).  With its hard-coded sample count `N = 1000` (the
source's default and only value), the sampler produces three sequences of
length 1000; the positions are `x_i = i·L/999`, uniformly spaced over
`[0, L]` inclusive of both endpoints (`x_0 = 0`, `x_999 = L`); and
`np.argmin` / `np.argmax` as used by `plot_diagrams` return, for both the
shear and the moment sequence, an index holding the minimum resp. maximum
value of that sequence. -/
theorem diagram_sampler_grid_and_extrema (L : ℚ) (pls : List Load)
    (dls : List DistributedLoad) (rs : List Load) :
    (calculate_diagrams L pls dls rs).1.length = 1000
    ∧ (calculate_diagrams L pls dls rs).2.1.length = 1000
    ∧ (calculate_diagrams L pls dls rs).2.2.length = 1000
    ∧ (∀ i : Fin 1000, (calculate_diagrams L pls dls rs).1[(i : Nat)]?
        = some (((i : Nat) : ℚ) * L / 999))
    ∧ (calculate_diagrams L pls dls rs).1[0]? = some 0
    ∧ (calculate_diagrams L pls dls rs).1[999]? = some L
    ∧ (∃ v, (calculate_diagrams L pls dls rs).2.1[argmin
          ((calculate_diagrams L pls dls rs).2.1)]? = some v
        ∧ ∀ j : Fin 1000, ∃ w,
            (calculate_diagrams L pls dls rs).2.1[(j : Nat)]? = some w ∧ v ≤ w)
    ∧ (∃ v, (calculate_diagrams L pls dls rs).2.1[argmax
          ((calculate_diagrams L pls dls rs).2.1)]? = some v
        ∧ ∀ j : Fin 1000, ∃ w,
            (calculate_diagrams L pls dls rs).2.1[(j : Nat)]? = some w ∧ w ≤ v)
    ∧ (∃ v, (calculate_diagrams L pls dls rs).2.2[argmin
          ((calculate_diagrams L pls dls rs).2.2)]? = some v
        ∧ ∀ j : Fin 1000, ∃ w,
            (calculate_diagrams L pls dls rs).2.2[(j : Nat)]? = some w ∧ v ≤ w)
    ∧ (∃ v, (calculate_diagrams L pls dls rs).2.2[argmax
          ((calculate_diagrams L pls dls rs).2.2)]? = some v
        ∧ ∀ j : Fin 1000, ∃ w,
            (calculate_diagrams L pls dls rs).2.2[(j : Nat)]? = some w ∧ w ≤ v) := by
  have hlen1 : (calculate_diagrams L pls dls rs).1.length = 1000 := by
    simp [calculate_diagrams]
  have hlen2 : (calculate_diagrams L pls dls rs).2.1.length = 1000 := by
    simp [calculate_diagrams]
  have hlen3 : (calculate_diagrams L pls dls rs).2.2.length = 1000 := by
    simp [calculate_diagrams]
  have hgrid : ∀ i : Fin 1000, (calculate_diagrams L pls dls rs).1[(i : Nat)]?
      = some (((i : Nat) : ℚ) * L / 999) := by
    intro i
    simp only [calculate_diagrams, List.getElem?_map, List.getElem?_range i.isLt]
    rfl
  have h0 : (calculate_diagrams L pls dls rs).1[0]? = some 0 := by
    have h := hgrid ⟨0, by norm_num⟩
    simpa using h
  have h999 : (calculate_diagrams L pls dls rs).1[999]? = some L := by
    have h := hgrid ⟨999, by norm_num⟩
    rw [h]
    norm_num
  exact ⟨hlen1, hlen2, hlen3, hgrid, h0, h999,
    argmin_spec_1000 _ hlen2, argmax_spec_1000 _ hlen2,
    argmin_spec_1000 _ hlen3, argmax_spec_1000 _ hlen3⟩
